import Mathlib

/-!
Verification of the socketit WebSocket RPC library (`src/socketit.js`).

The development shallowly embeds the `Channel`, `Server` and `Client`
classes.  Inbound frames are modelled as parsed JSON values; the
`pendingRequests` map is modelled by the list of correlation ids it holds;
effects (frames sent, promise settlements, handler invocations, uncaught
errors escaping `_onMessage`) are returned explicitly.
-/

set_option autoImplicit false

mutual

/-- A parsed JSON value (`JSON.parse` result).  Numeric payloads that the
library inspects (`code`, timeouts) are integral, so numbers are modelled
as `Int`.  Arrays and objects carry mutually defined spines so that
equality is decidable. -/
inductive JVal where
  | null
  | bool (b : Bool)
  | num (n : Int)
  | str (s : String)
  | arr (elems : JList)
  | obj (fields : JFields)
  deriving DecidableEq

/-- Spine of a JSON array. -/
inductive JList where
  | nil
  | cons (hd : JVal) (tl : JList)
  deriving DecidableEq

/-- Spine of a JSON object: key/value fields in order.  Objects produced
by `JSON.parse` have unique keys. -/
inductive JFields where
  | fnil
  | fcons (key : String) (val : JVal) (tl : JFields)
  deriving DecidableEq

end

/-- Build an object spine from a list of fields. -/
def JFields.ofList : List (String × JVal) → JFields
  | [] => .fnil
  | (k, v) :: rest => .fcons k v (JFields.ofList rest)

mutual

/-- JavaScript `String(v)` coercion, as used by template literals and
property-key coercion. -/
def jsToString : JVal → String
  | .null => "null"
  | .bool b => cond b "true" "false"
  | .num n => toString n
  | .str s => s
  | .obj _ => "[object Object]"
  | .arr elems => jsArrJoin elems

/-- `Array.prototype.toString`: elements joined by commas, `null` and
`undefined` elements rendered empty. -/
def jsArrJoin : JList → String
  | .nil => ""
  | .cons x xs =>
    (match x with
     | .null => ""
     | v => jsToString v)
    ++ (match xs with
        | .nil => ""
        | _ => ",") ++ jsArrJoin xs

end

/-- A JavaScript value that may be `undefined` (`none`). -/
abbrev JsVal := Option JVal

/-- JavaScript truthiness of a value (with `none` = `undefined`). -/
def jsTruthy : JsVal → Bool
  | none => false
  | some .null => false
  | some (.bool b) => b
  | some (.num n) => n != 0
  | some (.str s) => s != ""
  | some (.arr _) => true
  | some (.obj _) => true

/-- `x || 'Error'` followed by `new Error(x).message`: the fallback used at
`pending.reject(new Error(data.message || 'Error'))`. -/
def jsOrError (m : JsVal) : String :=
  match m with
  | some v => if jsTruthy (some v) then jsToString v else "Error"
  | none => "Error"

/-- Lookup of a key among an object's fields. -/
def lookupField : JFields → String → Option JVal
  | .fnil, _ => none
  | .fcons k w rest, key => if key = k then some w else lookupField rest key

/-- Property lookup on a parsed JSON value.  Reading a property of a
non-object non-null value yields `undefined`; the throwing case (`null`
receiver) is handled separately at each access site that can see
`null`. -/
def fieldOf (v : JVal) (key : String) : JsVal :=
  match v with
  | .obj fields => lookupField fields key
  | _ => none

/-- Property access on a possibly-`undefined`/`null` value: `d.message`
throws a `TypeError` when `d` is `undefined` or `null`. -/
def getFieldOpt (v : JsVal) (key : String) : Except Unit JsVal :=
  match v with
  | none => .error ()
  | some .null => .error ()
  | some w => .ok (fieldOf w key)

/-- JavaScript property-key coercion `obj[method]` (`ToPropertyKey`):
`String(method)`, with `undefined` becoming the key `"undefined"`. -/
def jsPropKey (v : JsVal) : String :=
  match v with
  | none => "undefined"
  | some w => jsToString w

/-- An outbound frame handed to `ws.send` (before serialization). -/
inductive Frame where
  | request (id : String) (method : String) (data : JsVal)
  | publish (method : String) (data : JsVal)
  | response (ack : JsVal) (code : Int) (data : JsVal)
  deriving DecidableEq

/-- A route handler: receives the frame's `data` and either produces a
result or fails with an error whose `.message` is the given string.  (The
`channel` argument handlers also receive plays no role in the dispatch
logic and is omitted.) -/
abbrev Handler := JsVal → Except String JsVal

/-- Lookup among the *own* entries of the `routes` object literal (the
`ping` default and the user-supplied routes).  Full property access also
walks the prototype chain; see `routeLookup`. -/
def findRoute : List (String × Handler) → String → Option Handler
  | [], _ => none
  | (k, h) :: rest, key => if key = k then some h else findRoute rest key

/-- What `this.routes[method]` can yield: an own or inherited callable
member, a truthy non-callable value, or `undefined`. -/
inductive RouteLookup where
  | found (h : Handler)
  | notCallable (errMsg : String)
  | absent

/-- The `Object.prototype` members reachable through property access on
the `routes` object literal (line 111 walks the prototype chain).  Each
callable member is modelled by its behavior when invoked as
`routeHandler(data, this)` — a plain call in strict mode (class bodies
are strict), so the callee's own `this` is `undefined`; error texts are
V8's.  `Object` (reached as `constructor`) returns `ToObject(data)`,
whose JSON serialization coincides with `data`'s for non-nullish values;
`__proto__` is an accessor yielding `Object.prototype` itself — truthy
but not callable. -/
def protoMember : String → Option RouteLookup
  | "toString" => some (.found (fun _ => .ok (some (.str "[object Undefined]"))))
  | "toLocaleString" => some (.found (fun _ =>
      .error "Cannot read properties of undefined (reading 'toString')"))
  | "valueOf" => some (.found (fun _ =>
      .error "Cannot convert undefined or null to object"))
  | "hasOwnProperty" => some (.found (fun _ =>
      .error "Cannot convert undefined or null to object"))
  | "isPrototypeOf" => some (.found (fun d =>
      match d with
      | some (.obj _) => .error "Cannot convert undefined or null to object"
      | some (.arr _) => .error "Cannot convert undefined or null to object"
      | _ => .ok (some (.bool false))))
  | "propertyIsEnumerable" => some (.found (fun _ =>
      .error "Cannot convert undefined or null to object"))
  | "constructor" => some (.found (fun d =>
      .ok (match d with
           | none => some (.obj .fnil)
           | some .null => some (.obj .fnil)
           | some v => some v)))
  | "__defineGetter__" => some (.found (fun _ =>
      .error "Cannot convert undefined or null to object"))
  | "__defineSetter__" => some (.found (fun _ =>
      .error "Cannot convert undefined or null to object"))
  | "__lookupGetter__" => some (.found (fun _ =>
      .error "Cannot convert undefined or null to object"))
  | "__lookupSetter__" => some (.found (fun _ =>
      .error "Cannot convert undefined or null to object"))
  | "__proto__" => some (.notCallable "routeHandler is not a function")
  | _ => none

/-- Full semantics of `const routeHandler = this.routes[method]`
(line 111): an own entry of the route table shadows the prototype;
failing that, the `Object.prototype` members are found; only otherwise is
the result `undefined` (falsy, taking the not-found branch). -/
def routeLookup (routes : List (String × Handler)) (key : String) : RouteLookup :=
  match findRoute routes key with
  | some h => .found h
  | none =>
    match protoMember key with
    | some r => r
    | none => .absent

/-- Route table built by the `Channel` constructor:
`{ ping: async () => 'pong', ...options.routes }` — the built-in `ping`
answered by `'pong'`, overridable by a user route of the same name. -/
def mkRoutes (user : List (String × Handler)) : List (String × Handler) :=
  user ++ [( "ping", fun _ => .ok (some (.str "pong")))]

/-- How a pending call's promise was settled by `_onMessage`. -/
inductive Outcome where
  | resolved (value : JsVal)
  | rejected (message : String)
  deriving DecidableEq

/-- The observable effect of one `_onMessage` invocation: the pending-id
table afterwards, the settlements performed, the frames sent, the methods
whose handler was invoked, and whether an error escaped the `async`
function uncaught (an unhandled promise rejection). -/
structure MsgEffect where
  pending : List String
  settled : List (String × Outcome)
  sent : List Frame
  invoked : List String
  crashed : Bool
  deriving DecidableEq

/-- Effect of a frame that changes nothing. -/
def noEffect (pending : List String) : MsgEffect :=
  ⟨pending, [], [], [], false⟩

/-- Effect of an uncaught error with no other state change. -/
def crashEffect (pending : List String) : MsgEffect :=
  ⟨pending, [], [], [], true⟩

/-- Effect when a handler ran but `_send` then threw while offline and the
throw escaped uncaught. -/
def crashInvoked (pending : List String) (key : String) : MsgEffect :=
  ⟨pending, [], [], [key], true⟩

/-- `{message: s}` payload object of 404/500 responses. -/
def mkMsgObj (s : String) : JsVal :=
  some (.obj (.fcons "message" (.str s) .fnil))

/-- `Channel._onMessage(data)`, lines 89-142 of `src/socketit.js`.
`raw = none` models a `JSON.parse` failure (logged and dropped);
`online` is `this.isOnline` at the time responses are sent.  For a
`response` frame the pending entry is deleted before settlement; reading
`data.message` of a missing or `null` `data` field throws after that
deletion (modelled by `crashed`).  For `request`/`publish` frames the
route is fetched by `routeLookup` — plain property access, so inherited
`Object.prototype` members are found and invoked for method names such
as `toString`.  A `_send` throw while offline escapes uncaught: on the
handler paths the catch block's own `_send` of the 500 reply throws
again, and the 404 path is not wrapped at all. -/
def onMessage (online : Bool) (routes : List (String × Handler))
    (pending : List String) (raw : Option JVal) : MsgEffect :=
  match raw with
  | none => noEffect pending
  | some msg =>
    if msg = JVal.null then
      -- `message.type` on a parsed `null` throws a TypeError.
      crashEffect pending
    else
      let ty := fieldOf msg "type"
      if ty = some (.str "response") then
        let ack := fieldOf msg "ack"
        let code := fieldOf msg "code"
        let dat := fieldOf msg "data"
        match ack with
        | some (.str a) =>
          if a ∈ pending then
            let pending' := pending.erase a
            if code = some (.num 200) then
              ⟨pending', [(a, .resolved dat)], [], [], false⟩
            else
              match getFieldOpt dat "message" with
              | .error _ => crashEffect pending'
              | .ok m => ⟨pending', [(a, .rejected (jsOrError m))], [], [], false⟩
          else noEffect pending
        | _ =>
          -- `Map.get` with a non-string key finds no (uuid-string) entry.
          noEffect pending
      else if ty = some (.str "request") ∨ ty = some (.str "publish") then
        let isReq := ty = some (.str "request")
        let id := fieldOf msg "id"
        let method := fieldOf msg "method"
        let dat := fieldOf msg "data"
        let key := jsPropKey method
        match routeLookup routes key with
        | .found h =>
          match h dat with
          | .ok result =>
            if isReq then
              if online then ⟨pending, [], [.response id 200 result], [key], false⟩
              else crashInvoked pending key
            else ⟨pending, [], [], [key], false⟩
          | .error emsg =>
            if isReq then
              if online then ⟨pending, [], [.response id 500 (mkMsgObj emsg)], [key], false⟩
              else crashInvoked pending key
            else ⟨pending, [], [], [key], false⟩
        | .notCallable emsg =>
          -- `routeHandler(data, this)` throws synchronously inside the try.
          if isReq then
            if online then ⟨pending, [], [.response id 500 (mkMsgObj emsg)], [], false⟩
            else crashEffect pending
          else noEffect pending
        | .absent =>
          if isReq then
            if online then
              ⟨pending, [], [.response id 404 (mkMsgObj ("Method '" ++ key ++ "' not found"))], [], false⟩
            else crashEffect pending
          else noEffect pending
      else
        noEffect pending

/-- Result of one call to `Channel.request(method, data, options)`: the
pending-id table after the synchronous part of the call, the immediate
rejection if any (`some message`), the frames sent, whether the timeout
timer was armed, and the effective timeout in milliseconds. -/
structure ReqResult where
  pending : List String
  rejected : Option String
  sent : List Frame
  timerSet : Bool
  timeoutMs : Nat
  deriving DecidableEq

/-- `Channel.request(method, data, options)`, lines 152-180 of
`src/socketit.js`, with the freshly generated `uuidv4()` passed in as
`id`.  `timeoutOpt = none` models an absent/`null`/`undefined`
`options.timeout`; the source computes `options.timeout || 5000`, so a
falsy `0` also falls back to 5000.  The entry is registered, then
`_send` is attempted; if the transport is not open `_send` throws, the
entry is deleted again and the promise rejects immediately, before the
timer is armed. -/
def requestM (online : Bool) (pending : List String) (id method : String)
    (dat : JsVal) (timeoutOpt : Option Nat) : ReqResult :=
  let timeout := match timeoutOpt with
    | some t => if t = 0 then 5000 else t
    | none => 5000
  let registered := id :: pending
  if online then
    { pending := registered
      rejected := none
      sent := [.request id method dat]
      timerSet := true
      timeoutMs := timeout }
  else
    { pending := registered.erase id
      rejected := some "WebSocket is not open"
      sent := []
      timerSet := false
      timeoutMs := timeout }

/-- Options of a `Client`, with the constructor's defaults. -/
structure ClientOpts where
  autoReconnect : Bool := true
  reconnectInterval : Nat := 5000
  pingInterval : Nat := 10000
  deriving DecidableEq

/-- Mutable state of a `Client` that the lifecycle handlers touch:
`_manualClose`, and whether `pingIntervalId` holds a (possibly already
cleared) interval handle. -/
structure ClientState where
  manualClose : Bool
  pingId : Bool
  deriving DecidableEq

/-- Externally visible actions a `Client` lifecycle handler performs. -/
inductive CAction where
  | emitConnected
  | emitDisconnected
  | startPing
  | clearPing
  | closeTransport
  | scheduleReconnect (delayMs : Nat)
  | probeRequest (method : String) (data : JsVal) (timeoutMs : Nat)
  deriving DecidableEq

/-- The `ws.on('open', ...)` handler installed by `Client._connect`,
lines 327-335: clears `_manualClose`, builds a fresh `Channel`, emits
`connected`, and starts the health probe when `pingInterval` is
truthy (`_startPing` stores a fresh interval handle). -/
def clientOnOpen (o : ClientOpts) (s : ClientState) :
    ClientState × List CAction :=
  ({ manualClose := false
     pingId := if o.pingInterval = 0 then s.pingId else true },
   [CAction.emitConnected] ++ (if o.pingInterval = 0 then [] else [CAction.startPing]))

/-- `Client._onDisconnected`, lines 341-355: emits `disconnected`, clears
and nulls the probe interval, and schedules a reconnection attempt only
when the closure was not manual and `autoReconnect` is set. -/
def clientOnDisconnected (o : ClientOpts) (s : ClientState) :
    ClientState × List CAction :=
  ({ manualClose := s.manualClose, pingId := false },
   [CAction.emitDisconnected]
     ++ (if s.pingId then [CAction.clearPing] else [])
     ++ (if !s.manualClose && o.autoReconnect then
           [CAction.scheduleReconnect o.reconnectInterval] else []))

/-- `Client.close`, lines 370-378: sets `_manualClose`, clears the probe
interval (without nulling the handle) and closes the transport. -/
def clientClose (s : ClientState) : ClientState × List CAction :=
  ({ manualClose := true, pingId := s.pingId },
   (if s.pingId then [CAction.clearPing] else []) ++ [CAction.closeTransport])

/-- One tick of the probe interval armed by `Client._startPing`,
lines 361-367: when a current `Channel` exists and reports online, issue
`request('ping', null, { timeout: pingInterval / 2 })`; otherwise do
nothing. -/
def pingTick (o : ClientOpts) (hasChannel : Bool) (channelOnline : Bool) :
    List CAction :=
  if hasChannel && channelOnline then
    [CAction.probeRequest "ping" (some .null) (o.pingInterval / 2)]
  else []

/-- The probe request's continuation, line 365: `.catch(() => this.ws.close())`
— on rejection close the transport, on success do nothing. -/
def onProbeSettled (failed : Bool) : List CAction :=
  if failed then [CAction.closeTransport] else []

/-- Actions of `Server.stop`. -/
inductive SAction where
  | closeWss
  | closeServer
  deriving DecidableEq

/-- `Server.stop`, lines 280-298 of `src/socketit.js`.  `hasWss` and
`hasServer` say whether `this.wss` and `this.server` are non-null;
`external` records `options.externalServer !== null` (note the source
never consults it in `stop`); `wssErr`/`serverErr` are the errors the
respective `close` callbacks deliver.  Returns the close calls made, in
order, and the promise's settlement. -/
def serverStop (hasWss hasServer external : Bool)
    (wssErr serverErr : Option String) : List SAction × Except String Unit :=
  if hasWss then
    match wssErr with
    | some e => ([SAction.closeWss], .error e)
    | none =>
      if hasServer then
        match serverErr with
        | some e => ([SAction.closeWss, SAction.closeServer], .error e)
        | none => ([SAction.closeWss, SAction.closeServer], .ok ())
      else ([SAction.closeWss], .ok ())
  else ([], .ok ())

/-- The wire frame built by `Channel.request` (lines 154-159), as the peer
parses it back: `JSON.stringify` omits a field whose value is
`undefined`, so an `undefined` `data` yields no `data` field. -/
def reqFrame (id m : String) (dat : JsVal) : JVal :=
  .obj (.fcons "type" (.str "request") (.fcons "id" (.str id) (.fcons "method" (.str m)
    (match dat with
     | some d => .fcons "data" d .fnil
     | none => .fnil))))

/-- The wire frame built by `Channel.publish` (lines 183-187), as the peer
parses it back. -/
def pubFrame (m : String) (dat : JsVal) : JVal :=
  .obj (.fcons "type" (.str "publish") (.fcons "method" (.str m)
    (match dat with
     | some d => .fcons "data" d .fnil
     | none => .fnil)))

/-- A sample route handler returning its payload. -/
def echoHandler : Handler := fun d => .ok d

/-- A sample route handler that always fails with message `"boom"`. -/
def failHandler : Handler := fun _ => .error "boom"

example :
    onMessage true [] ["a", "b"]
      (some (.obj (JFields.ofList
        [( "type", .str "response"), ( "ack", .str "a"),
         ( "code", .num 200), ( "data", .num 7)]))) =
      ⟨["b"], [("a", .resolved (some (.num 7)))], [], [], false⟩ := by
  decide

example :
    onMessage true [] ["a"]
      (some (.obj (JFields.ofList
        [( "type", .str "response"), ( "ack", .str "a"), ( "code", .num 500)]))) =
      ⟨[], [], [], [], true⟩ := by
  decide

example :
    onMessage true [] []
      (some (.obj (JFields.ofList
        [( "type", .str "request"), ( "id", .str "i1"), ( "method", .str "foo")]))) =
      ⟨[], [], [.response (some (.str "i1")) 404
          (mkMsgObj "Method 'foo' not found")], [], false⟩ := by
  decide

/-! ## Helper lemmas -/

theorem getFieldOpt_ok_of_present (d : JsVal) (h0 : d ≠ none)
    (h1 : d ≠ some JVal.null) : ∃ m, getFieldOpt d "message" = .ok m := by
  match d with
  | none => exact absurd rfl h0
  | some .null => exact absurd rfl h1
  | some (.bool b) => exact ⟨_, rfl⟩
  | some (.num n) => exact ⟨_, rfl⟩
  | some (.str s) => exact ⟨_, rfl⟩
  | some (.arr xs) => exact ⟨_, rfl⟩
  | some (.obj fs) => exact ⟨_, rfl⟩

theorem fieldOf_reqFrame_type (id m : String) (dat : JsVal) :
    fieldOf (reqFrame id m dat) "type" = some (.str "request") := by
  cases dat <;> rfl

theorem fieldOf_reqFrame_id (id m : String) (dat : JsVal) :
    fieldOf (reqFrame id m dat) "id" = some (.str id) := by
  cases dat <;> rfl

theorem fieldOf_reqFrame_method (id m : String) (dat : JsVal) :
    fieldOf (reqFrame id m dat) "method" = some (.str m) := by
  cases dat <;> rfl

theorem fieldOf_reqFrame_data (id m : String) (dat : JsVal) :
    fieldOf (reqFrame id m dat) "data" = dat := by
  cases dat <;> rfl

theorem reqFrame_ne_null (id m : String) (dat : JsVal) :
    reqFrame id m dat ≠ JVal.null := by
  cases dat <;> simp [reqFrame]

theorem fieldOf_pubFrame_type (m : String) (dat : JsVal) :
    fieldOf (pubFrame m dat) "type" = some (.str "publish") := by
  cases dat <;> rfl

theorem fieldOf_pubFrame_method (m : String) (dat : JsVal) :
    fieldOf (pubFrame m dat) "method" = some (.str m) := by
  cases dat <;> rfl

theorem fieldOf_pubFrame_data (m : String) (dat : JsVal) :
    fieldOf (pubFrame m dat) "data" = dat := by
  cases dat <;> rfl

theorem pubFrame_ne_null (m : String) (dat : JsVal) :
    pubFrame m dat ≠ JVal.null := by
  cases dat <;> simp [pubFrame]

/-! ## Claims -/

/-- C1: an inbound response frame settles exactly the pending call whose
id equals the frame's `ack` and no other; the entry is removed from the
table (so each pending call is settled at most once — re-delivering the
same frame afterwards is a no-op), every other pending id survives, and a
response whose `ack` matches no entry changes nothing.  Stated for frames
whose shape the settlement code can process (`code` 200, or a `data`
field that is present and non-null — the shape every peer-generated
response has). -/
theorem response_correlation (online : Bool) (routes : List (String × Handler))
    (pending : List String) (a : String) (msg : JVal)
    (hnd : pending.Nodup)
    (hty : fieldOf msg "type" = some (.str "response"))
    (hack : fieldOf msg "ack" = some (.str a))
    (hwf : fieldOf msg "code" = some (.num 200) ∨
      (fieldOf msg "data" ≠ none ∧ fieldOf msg "data" ≠ some JVal.null)) :
    (a ∈ pending →
      (∃ out, onMessage online routes pending (some msg) =
        ⟨pending.erase a, [(a, out)], [], [], false⟩)
      ∧ (∀ b ∈ pending, b ≠ a →
          b ∈ (onMessage online routes pending (some msg)).pending)
      ∧ onMessage online routes (pending.erase a) (some msg) =
          noEffect (pending.erase a))
    ∧ (a ∉ pending →
        onMessage online routes pending (some msg) = noEffect pending) := by
  have hnn : msg ≠ JVal.null := by
    intro h
    rw [h] at hty
    simp [fieldOf] at hty
  have hmatched : ∀ p : List String, a ∈ p →
      ∃ out, onMessage online routes p (some msg) =
        ⟨p.erase a, [(a, out)], [], [], false⟩ := by
    intro p hmem
    by_cases hc : fieldOf msg "code" = some (JVal.num 200)
    · exact ⟨.resolved (fieldOf msg "data"),
        by simp [onMessage, hnn, hty, hack, hc, hmem]⟩
    · have hdat : fieldOf msg "data" ≠ none ∧ fieldOf msg "data" ≠ some JVal.null :=
        hwf.resolve_left hc
      obtain ⟨m, hm⟩ := getFieldOpt_ok_of_present (fieldOf msg "data") hdat.1 hdat.2
      exact ⟨.rejected (jsOrError m),
        by simp [onMessage, hnn, hty, hack, hc, hmem, hm]⟩
  have hunmatched : ∀ p : List String, a ∉ p →
      onMessage online routes p (some msg) = noEffect p := by
    intro p hmem
    simp [onMessage, hnn, hty, hack, hmem, noEffect]
  refine ⟨fun hmem => ?_, hunmatched pending⟩
  obtain ⟨out, hout⟩ := hmatched pending hmem
  refine ⟨⟨out, hout⟩, ?_, ?_⟩
  · intro b hb hne
    rw [hout]
    exact (List.mem_erase_of_ne hne).mpr hb
  · exact hunmatched (pending.erase a)
      (fun hin => absurd ((hnd.mem_erase_iff).mp hin).1 (by simp))

/-- Witness for C1 at a concrete table and frame: the response with ack
`"x"` settles `"x"`, leaves `"y"`, and re-delivery is a no-op; a response
with an unknown ack is dropped. -/
theorem response_correlation_witness :
    (∃ out, onMessage true [] ["x", "y"]
      (some (.obj (.fcons "type" (.str "response") (.fcons "ack" (.str "x")
        (.fcons "code" (.num 200) (.fcons "data" (.num 7) .fnil)))))) =
        ⟨["y"], [("x", out)], [], [], false⟩)
    ∧ onMessage true [] ["y"]
      (some (.obj (.fcons "type" (.str "response") (.fcons "ack" (.str "x")
        (.fcons "code" (.num 200) (.fcons "data" (.num 7) .fnil)))))) =
        noEffect ["y"] := by
  have h := response_correlation true [] ["x", "y"] "x"
    (.obj (.fcons "type" (.str "response") (.fcons "ack" (.str "x")
      (.fcons "code" (.num 200) (.fcons "data" (.num 7) .fnil)))))
    (by decide) (by decide) (by decide) (Or.inl (by decide))
  obtain ⟨h1, h2, h3⟩ := h.1 (by decide)
  exact ⟨h1, h3⟩

/-- C2: a `request` made while the transport is not open rejects
immediately with the transport-not-open error, sends nothing, arms no
timer, and leaves the pending table unchanged — in particular without the
freshly allocated id. -/
theorem request_offline_rejects (pending : List String) (id method : String)
    (dat : JsVal) (timeoutOpt : Option Nat) (hfresh : id ∉ pending) :
    (requestM false pending id method dat timeoutOpt).pending = pending
    ∧ id ∉ (requestM false pending id method dat timeoutOpt).pending
    ∧ (requestM false pending id method dat timeoutOpt).rejected =
        some "WebSocket is not open"
    ∧ (requestM false pending id method dat timeoutOpt).sent = []
    ∧ (requestM false pending id method dat timeoutOpt).timerSet = false := by
  have herase : (id :: pending).erase id = pending := List.erase_cons_head id pending
  refine ⟨?_, ?_, ?_, ?_, ?_⟩ <;> simp [requestM, herase, hfresh]

/-- Witness for C2 at a concrete table and id. -/
theorem request_offline_rejects_witness :
    (requestM false ["p"] "q" "ping" none none).pending = ["p"]
    ∧ "q" ∉ (requestM false ["p"] "q" "ping" none none).pending
    ∧ (requestM false ["p"] "q" "ping" none none).rejected =
        some "WebSocket is not open"
    ∧ (requestM false ["p"] "q" "ping" none none).sent = []
    ∧ (requestM false ["p"] "q" "ping" none none).timerSet = false :=
  request_offline_rejects ["p"] "q" "ping" none none (by decide)

/-- C3 (code bug): a response frame that parses as JSON but lacks the
expected shape — matching `ack`, `code` ≠ 200, and no `data` field — is
not dropped cleanly: the pending entry is deleted, then reading
`data.message` of the undefined `data` throws, so the call is removed
but never settled and the error escapes `_onMessage` uncaught. -/
theorem response_missing_data_crash :
    onMessage true [] ["a"]
      (some (.obj (.fcons "type" (.str "response") (.fcons "ack" (.str "a")
        (.fcons "code" (.num 500) .fnil))))) =
      { pending := [], settled := [], sent := [], invoked := [], crashed := true } := by
  decide

/-- C4 counterexample: the claim fails twice over.  For an unknown method
`foo` the code sends payload message `"Method 'foo' not found"` — capital
`M` — which differs from the claimed `"method 'foo' not found"`; and for
method `toString`, absent from the (empty) route table, the prototype
chain supplies the inherited `Object.prototype.toString`, which is
invoked and answered with a 200 response — no 404 at all. -/
theorem notfound_message_case :
    ((onMessage true [] [] (some (reqFrame "i1" "foo" none))).sent =
      [Frame.response (some (.str "i1")) 404 (mkMsgObj "Method 'foo' not found")]
    ∧ mkMsgObj "Method 'foo' not found" ≠ mkMsgObj "method 'foo' not found")
    ∧ onMessage true [] [] (some (reqFrame "i2" "toString" none)) =
      ⟨[], [], [.response (some (.str "i2")) 200 (some (.str "[object Undefined]"))],
        ["toString"], false⟩ := by
  exact ⟨⟨by decide, by decide⟩, by decide⟩

/-- C4 (amended): an inbound request whose method is neither an own entry
of the route table nor an inherited `Object.prototype` member elicits
exactly one response with `ack` = the request id, code 404 and payload
`{message: "Method '<method>' not found"}` (capital `M`); a publish frame
for such a method elicits nothing. -/
theorem unknown_method_response (routes : List (String × Handler))
    (pending : List String) (id m : String) (dat : JsVal)
    (hm : routeLookup routes m = RouteLookup.absent) :
    onMessage true routes pending (some (reqFrame id m dat)) =
      ⟨pending, [], [.response (some (.str id)) 404
          (mkMsgObj ("Method '" ++ m ++ "' not found"))], [], false⟩
    ∧ onMessage true routes pending (some (pubFrame m dat)) = noEffect pending := by
  have hne1 : (some (JVal.str "request") : JsVal) ≠ some (.str "response") := by decide
  have hne2 : (some (JVal.str "publish") : JsVal) ≠ some (.str "response") := by decide
  have hne3 : (some (JVal.str "publish") : JsVal) ≠ some (.str "request") := by decide
  constructor
  · simp [onMessage, reqFrame_ne_null, fieldOf_reqFrame_type, fieldOf_reqFrame_id,
      fieldOf_reqFrame_method, fieldOf_reqFrame_data, hne1, jsPropKey, jsToString, hm]
  · simp [onMessage, pubFrame_ne_null, fieldOf_pubFrame_type,
      fieldOf_pubFrame_method, fieldOf_pubFrame_data, hne2, hne3, jsPropKey,
      jsToString, hm, noEffect]

/-- Witness for C4 (amended) at a concrete method that neither the route
table nor `Object.prototype` provides. -/
theorem unknown_method_response_witness :
    onMessage true [] [] (some (reqFrame "i1" "foo" none)) =
      ⟨[], [], [.response (some (.str "i1")) 404
          (mkMsgObj ("Method '" ++ "foo" ++ "' not found"))], [], false⟩
    ∧ onMessage true [] [] (some (pubFrame "foo" none)) = noEffect [] :=
  unknown_method_response [] [] "i1" "foo" none rfl

/-- C5: for a registered method, a request is answered by exactly one
response — `{ack, 200, result}` on handler success, `{ack, 500,
{message: failure text}}` on handler failure; a publish invokes the
handler but sends nothing in either case. -/
theorem handler_dispatch (routes : List (String × Handler))
    (pending : List String) (h : Handler) (id m : String) (dat : JsVal)
    (hr : findRoute routes m = some h) :
    (∀ result, h dat = .ok result →
      onMessage true routes pending (some (reqFrame id m dat)) =
        ⟨pending, [], [.response (some (.str id)) 200 result], [m], false⟩)
    ∧ (∀ emsg, h dat = .error emsg →
      onMessage true routes pending (some (reqFrame id m dat)) =
        ⟨pending, [], [.response (some (.str id)) 500 (mkMsgObj emsg)], [m], false⟩)
    ∧ onMessage true routes pending (some (pubFrame m dat)) =
        ⟨pending, [], [], [m], false⟩ := by
  have hne1 : (some (JVal.str "request") : JsVal) ≠ some (.str "response") := by decide
  have hne2 : (some (JVal.str "publish") : JsVal) ≠ some (.str "response") := by decide
  have hne3 : (some (JVal.str "publish") : JsVal) ≠ some (.str "request") := by decide
  -- An own entry of the route table shadows the prototype chain.
  have hl : routeLookup routes m = RouteLookup.found h := by
    simp [routeLookup, hr]
  refine ⟨fun result hres => ?_, fun emsg herr => ?_, ?_⟩
  · simp [onMessage, reqFrame_ne_null, fieldOf_reqFrame_type, fieldOf_reqFrame_id,
      fieldOf_reqFrame_method, fieldOf_reqFrame_data, hne1, jsPropKey, jsToString,
      hl, hres]
  · simp [onMessage, reqFrame_ne_null, fieldOf_reqFrame_type, fieldOf_reqFrame_id,
      fieldOf_reqFrame_method, fieldOf_reqFrame_data, hne1, jsPropKey, jsToString,
      hl, herr]
  · cases hdat : h dat <;>
      simp [onMessage, pubFrame_ne_null, fieldOf_pubFrame_type,
        fieldOf_pubFrame_method, fieldOf_pubFrame_data, hne2, hne3, jsPropKey,
        jsToString, hl, hdat]

/-- Witness for C5: the `echo` handler resolves a request with its
payload, the `boom` handler answers 500 with its message, and a publish
to `echo` sends nothing. -/
theorem handler_dispatch_witness :
    onMessage true [( "echo", echoHandler)] []
        (some (reqFrame "i1" "echo" (some (.num 3)))) =
      ⟨[], [], [.response (some (.str "i1")) 200 (some (.num 3))], ["echo"], false⟩
    ∧ onMessage true [( "boom", failHandler)] []
        (some (reqFrame "i2" "boom" none)) =
      ⟨[], [], [.response (some (.str "i2")) 500 (mkMsgObj "boom")], ["boom"], false⟩
    ∧ onMessage true [( "echo", echoHandler)] []
        (some (pubFrame "echo" (some (.num 3)))) =
      ⟨[], [], [], ["echo"], false⟩ :=
  ⟨(handler_dispatch [( "echo", echoHandler)] [] echoHandler "i1" "echo"
      (some (.num 3)) rfl).1 (some (.num 3)) rfl,
   (handler_dispatch [( "boom", failHandler)] [] failHandler "i2" "boom"
      none rfl).2.1 "boom" rfl,
   (handler_dispatch [( "echo", echoHandler)] [] echoHandler "i1" "echo"
      (some (.num 3)) rfl).2.2⟩

/-- C6: after `close()` the disconnect handler schedules no reconnection
(whatever the options), `close()` is idempotent, `close()` sets the
manual-close flag, only a successful open resets it, and the disconnect
handler leaves it untouched. -/
theorem client_manual_close (o : ClientOpts) (s : ClientState) :
    (∀ d, CAction.scheduleReconnect d ∉ (clientOnDisconnected o (clientClose s).1).2)
    ∧ clientClose (clientClose s).1 = clientClose s
    ∧ (clientClose s).1.manualClose = true
    ∧ (clientOnOpen o s).1.manualClose = false
    ∧ (clientOnDisconnected o s).1.manualClose = s.manualClose := by
  refine ⟨?_, rfl, rfl, rfl, rfl⟩
  intro d
  cases hp : s.pingId <;> simp [clientOnDisconnected, clientClose, hp]

/-- C7: with a non-zero `pingInterval` the open handler arms the probe;
each probe tick issues `request('ping', null, timeout = pingInterval/2)`
when the current channel is open, does nothing otherwise, and a failed
probe closes the transport while a successful one does nothing. -/
theorem client_ping_probe (o : ClientOpts) (s : ClientState)
    (hp : o.pingInterval ≠ 0) :
    (clientOnOpen o s).1.pingId = true
    ∧ CAction.startPing ∈ (clientOnOpen o s).2
    ∧ pingTick o true true =
        [CAction.probeRequest "ping" (some .null) (o.pingInterval / 2)]
    ∧ (∀ hasChannel channelOnline : Bool,
        ¬(hasChannel = true ∧ channelOnline = true) →
        pingTick o hasChannel channelOnline = [])
    ∧ onProbeSettled true = [CAction.closeTransport]
    ∧ onProbeSettled false = [] := by
  refine ⟨by simp [clientOnOpen, hp], by simp [clientOnOpen, hp], rfl, ?_, rfl, rfl⟩
  intro hc onl hno
  cases hc <;> cases onl <;> simp_all [pingTick]

/-- Witness for C7 at the constructor's default options. -/
theorem client_ping_probe_witness :
    (clientOnOpen ⟨true, 5000, 10000⟩ ⟨false, false⟩).1.pingId = true
    ∧ CAction.startPing ∈ (clientOnOpen ⟨true, 5000, 10000⟩ ⟨false, false⟩).2
    ∧ pingTick ⟨true, 5000, 10000⟩ true true =
        [CAction.probeRequest "ping" (some .null) (10000 / 2)]
    ∧ (∀ hasChannel channelOnline : Bool,
        ¬(hasChannel = true ∧ channelOnline = true) →
        pingTick ⟨true, 5000, 10000⟩ hasChannel channelOnline = [])
    ∧ onProbeSettled true = [CAction.closeTransport]
    ∧ onProbeSettled false = [] :=
  client_ping_probe ⟨true, 5000, 10000⟩ ⟨false, false⟩ (by decide)

/-- C8 counterexample: with an externally owned endpoint
(`external = true`) and error-free close callbacks, `stop()` still issues
`closeServer` — the endpoint is not left to its owner. -/
theorem server_stop_closes_external :
    serverStop true true true none none =
      ([SAction.closeWss, SAction.closeServer], .ok ())
    ∧ SAction.closeServer ∈ (serverStop true true true none none).1 := by
  exact ⟨rfl, by decide⟩

/-- C8 (amended): on a started server, `stop()` closes the frame-layer
acceptor first and then the underlying endpoint — whether or not the
endpoint is externally owned — resolving only after both complete and
rejecting with the first error encountered. -/
theorem server_stop_order (external : Bool) (wssErr serverErr : Option String) :
    serverStop true true external wssErr serverErr =
      match wssErr with
      | some e => ([SAction.closeWss], .error e)
      | none =>
        match serverErr with
        | some e => ([SAction.closeWss, SAction.closeServer], .error e)
        | none => ([SAction.closeWss, SAction.closeServer], .ok ()) := by
  cases wssErr <;> cases serverErr <;> rfl

/-- C9: a falsy timeout option (absent or 0) falls back to the default
5000 ms — a zero (immediate) timeout cannot be requested. -/
theorem request_default_timeout (online : Bool) (pending : List String)
    (id method : String) (dat : JsVal) :
    (requestM online pending id method dat none).timeoutMs = 5000
    ∧ (requestM online pending id method dat (some 0)).timeoutMs = 5000 := by
  cases online <;> exact ⟨rfl, rfl⟩

/-- C10: a parsed frame whose `type` is none of `request`, `publish`,
`response` is ignored: nothing is sent, no settlement happens, no method
handler is recorded as invoked, and the pending table is unchanged. -/
theorem unknown_type_ignored (online : Bool) (routes : List (String × Handler))
    (pending : List String) (msg : JVal)
    (h1 : fieldOf msg "type" ≠ some (.str "request"))
    (h2 : fieldOf msg "type" ≠ some (.str "publish"))
    (h3 : fieldOf msg "type" ≠ some (.str "response")) :
    (onMessage online routes pending (some msg)).pending = pending
    ∧ (onMessage online routes pending (some msg)).sent = []
    ∧ (onMessage online routes pending (some msg)).invoked = []
    ∧ (onMessage online routes pending (some msg)).settled = [] := by
  by_cases hnull : msg = JVal.null
  · subst hnull
    refine ⟨rfl, rfl, rfl, rfl⟩
  · refine ⟨?_, ?_, ?_, ?_⟩ <;> simp [onMessage, hnull, h1, h2, h3, noEffect]

/-- Witness for C10 at a concrete frame of unknown type. -/
theorem unknown_type_ignored_witness :
    (onMessage true [] ["z"]
        (some (.obj (.fcons "type" (.str "banana") .fnil)))).pending = ["z"]
    ∧ (onMessage true [] ["z"]
        (some (.obj (.fcons "type" (.str "banana") .fnil)))).sent = []
    ∧ (onMessage true [] ["z"]
        (some (.obj (.fcons "type" (.str "banana") .fnil)))).invoked = []
    ∧ (onMessage true [] ["z"]
        (some (.obj (.fcons "type" (.str "banana") .fnil)))).settled = [] :=
  unknown_type_ignored true [] ["z"] (.obj (.fcons "type" (.str "banana") .fnil))
    (by decide) (by decide) (by decide)
